import Mathlib

/-
Verification of the risk decision engine of the health_risk_system
repository (src/model.py): the rule-based classifier
`_rule_based_predict`, the orchestrator `predict_risk` with its model
backend and fallback, and the abnormal-vital detector
`check_abnormal_vitals`.

Numeric vitals are embedded as rationals (Python ints/floats with the
decimal thresholds of the source read exactly); the consciousness field
is a string, as in the Python dict.  The model and scaler artifacts are
external to the repository (loaded from risk_model.h5 / scaler.pkl), so
the backend is embedded as optional functions; a function returning
`none` stands for a raised exception, which the source absorbs with
try/except fallback.
-/

namespace HealthRisk

/-- A vitals record: the eight keys of the `vitals` dict built in
src/app.py and consumed by src/model.py.  `on_oxygen` is the 0/1 value
the UI passes (the source tests `vitals['on_oxygen'] == 1`). -/
structure Vitals where
  respiratory_rate : ℚ
  oxygen_saturation : ℚ
  o2_scale : ℚ
  systolic_bp : ℚ
  heart_rate : ℚ
  temperature : ℚ
  consciousness : String
  on_oxygen : ℚ
deriving Repr, DecidableEq

/-- The probabilities dict: both prediction paths construct a dict with
exactly the keys Low, Medium, High (model.py lines 120-124 and 163-171),
so it is embedded as a record with exactly those three fields. -/
structure RiskProbs where
  low : ℚ
  medium : ℚ
  high : ℚ
deriving Repr, DecidableEq

/-- Respiratory-rate block of `_rule_based_predict` (model.py 136-138). -/
def rr_points (rr : ℚ) : ℕ :=
  if rr < 12 ∨ rr > 25 then 3 else if rr > 20 then 1 else 0

/-- Oxygen-saturation block of `_rule_based_predict` (model.py 140-142). -/
def spo2_points (spo2 : ℚ) : ℕ :=
  if spo2 < 90 then 4 else if spo2 < 94 then 2 else 0

/-- Systolic-BP block of `_rule_based_predict` (model.py 144-146). -/
def sbp_points (sbp : ℚ) : ℕ :=
  if sbp < 90 ∨ sbp > 180 then 3 else if sbp > 160 ∨ sbp < 100 then 1 else 0

/-- Heart-rate block of `_rule_based_predict` (model.py 148-150). -/
def hr_points (hr : ℚ) : ℕ :=
  if hr < 40 ∨ hr > 130 then 3 else if hr > 100 ∨ hr < 60 then 1 else 0

/-- Temperature block of `_rule_based_predict` (model.py 152-154). -/
def temp_points (temp : ℚ) : ℕ :=
  if temp < 35 ∨ temp > 39.5 then 3 else if temp > 38 ∨ temp < 36 then 1 else 0

/-- Consciousness block of `_rule_based_predict` (model.py 156-159). -/
def consciousness_points (c : String) : ℕ :=
  if c = "U" then 5 else if c = "P" then 3 else if c = "V" then 1 else 0

/-- Supplemental-oxygen block of `_rule_based_predict` (model.py 161). -/
def oxygen_points (ox : ℚ) : ℕ :=
  if ox = 1 then 1 else 0

/-- The severity score accumulated by the sequence of `score +=`
statements in `_rule_based_predict` (model.py 134-161): the blocks are
independent, so the sequential accumulation is their sum. -/
def rule_based_score (v : Vitals) : ℕ :=
  rr_points v.respiratory_rate + spo2_points v.oxygen_saturation +
  sbp_points v.systolic_bp + hr_points v.heart_rate +
  temp_points v.temperature + consciousness_points v.consciousness +
  oxygen_points v.on_oxygen

/-- `_rule_based_predict` (model.py 129-174): score the vitals, pick the
tier and canned probability triple, and return
(risk_label, risk_score, probs) where risk_score = probs[risk_label]. -/
def rule_based_predict (v : Vitals) : String × ℚ × RiskProbs :=
  let score := rule_based_score v
  if score ≥ 8 then ("High", 80.0, ⟨5.0, 15.0, 80.0⟩)
  else if score ≥ 4 then ("Medium", 65.0, ⟨20.0, 65.0, 15.0⟩)
  else ("Low", 80.0, ⟨80.0, 15.0, 5.0⟩)

/-- A loaded scaler object: `scaler.transform` on the 6-vector of
numeric vitals; `none` stands for a raised exception. -/
abbrev ScalerFn : Type := List ℚ → Option (List ℚ)

/-- A loaded model object: `model.predict` on the 8-wide feature vector,
yielding the 3-way class probability row; `none` stands for a raised
exception. -/
abbrev ModelFn : Type := List ℚ → Option (ℚ × ℚ × ℚ)

/-- The `numerical_input` row built in `_model_predict` (model.py 99-106). -/
def numericalInput (v : Vitals) : List ℚ :=
  [v.respiratory_rate, v.oxygen_saturation, v.o2_scale,
   v.systolic_bp, v.heart_rate, v.temperature]

/-- `consciousness_encoded = 1 if vitals['consciousness'] != 'A' else 0`
(model.py 109). -/
def consciousnessEncoded (c : String) : ℚ :=
  if c ≠ "A" then 1 else 0

/-- The `final_input` row: scaled numerics with the consciousness flag
and the raw on_oxygen value appended (model.py 110-113). -/
def finalInput (v : Vitals) (scaled : List ℚ) : List ℚ :=
  scaled ++ [consciousnessEncoded v.consciousness, v.on_oxygen]

/-- `np.argmax` over the 3 class probabilities: the first index
attaining the maximum (model.py 116). -/
def argmax3 (p0 p1 p2 : ℚ) : ℕ :=
  if p0 ≥ p1 ∧ p0 ≥ p2 then 0 else if p1 ≥ p2 then 1 else 2

/-- `np.max` over the 3 class probabilities (model.py 118). -/
def max3 (p0 p1 p2 : ℚ) : ℚ :=
  max p0 (max p1 p2)

/-- The RISK_LABELS table {0: Low, 1: Medium, 2: High} (model.py 22). -/
def RISK_LABELS (k : ℕ) : String :=
  if k = 0 then "Low" else if k = 1 then "Medium" else "High"

/-- `_model_predict` (model.py 94-126): scale, build features, infer,
take argmax; the whole body is wrapped in try/except returning
`_rule_based_predict(vitals)` on any exception, embedded here as the
`none` branches. -/
def model_predict (mdl : ModelFn) (scaler : ScalerFn) (v : Vitals) :
    String × ℚ × RiskProbs :=
  match scaler (numericalInput v) with
  | none => rule_based_predict v
  | some scaled =>
    match mdl (finalInput v scaled) with
    | none => rule_based_predict v
    | some (p0, p1, p2) =>
      (RISK_LABELS (argmax3 p0 p1 p2), max3 p0 p1 p2 * 100,
       ⟨p0 * 100, p1 * 100, p2 * 100⟩)

/-- `predict_risk` (model.py 80-91): load model and scaler (each
independently optional, absent files or load failures leave them None),
use the model path only when both are present, else the rule-based
fallback.  The load result is passed as a parameter since
`load_model_and_scaler` is process-wide cached external state. -/
def predict_risk (mdl : Option ModelFn) (scaler : Option ScalerFn)
    (v : Vitals) : String × ℚ × RiskProbs :=
  match mdl, scaler with
  | some m, some s => model_predict m s v
  | some _, none => rule_based_predict v
  | none, _ => rule_based_predict v

/-- One abnormal-vitals dict entry: value, status ('low' or 'high') and
the normal-range text (model.py 189-191). -/
structure Finding where
  value : ℚ
  status : String
  normal : String
deriving Repr, DecidableEq

/-- One iteration of the loop in `check_abnormal_vitals` (model.py
187-191): the entry added for one row of the checks table, if any.  The
normal-range text is the Python f-string rendering of the fixed bounds
of that row, passed in as a literal. -/
def abnormalCheckRow (key : String) (value low high : ℚ)
    (rangeText : String) : Option (String × Finding) :=
  if value < low then some (key, ⟨value, "low", rangeText⟩)
  else if value > high then some (key, ⟨value, "high", rangeText⟩)
  else none

/-- `check_abnormal_vitals` (model.py 177-192): walk the five-row checks
table in order, adding a keyed entry for each out-of-range value; the
insertion-ordered dict is embedded as an association list.  The range
texts are the f-string renderings of the table's fixed bounds. -/
def check_abnormal_vitals (v : Vitals) : List (String × Finding) :=
  (abnormalCheckRow "respiratory_rate" v.respiratory_rate 12 20 "12-20").toList ++
  (abnormalCheckRow "oxygen_saturation" v.oxygen_saturation 95 100 "95-100").toList ++
  (abnormalCheckRow "systolic_bp" v.systolic_bp 90 140 "90-140").toList ++
  (abnormalCheckRow "heart_rate" v.heart_rate 60 100 "60-100").toList ++
  (abnormalCheckRow "temperature" v.temperature 36.1 37.5 "36.1-37.5").toList

/-- The baseline normal vitals record named by the spec. -/
def baseline : Vitals :=
  { respiratory_rate := 16, oxygen_saturation := 98, o2_scale := 1,
    systolic_bp := 120, heart_rate := 80, temperature := 37.0,
    consciousness := "A", on_oxygen := 0 }

/-- One row of the spec's severity threshold table (spec section 4.2):
the severe condition takes precedence, else the moderate condition, else
no points.  Written from the spec's words, to be compared with the
source-derived score. -/
def specRow (severe : Prop) [Decidable severe] (sevPts : ℕ)
    (moderate : Prop) [Decidable moderate] (modPts : ℕ) : ℕ :=
  if severe then sevPts else if moderate then modPts else 0

/-- The spec's additive severity score (spec section 4.2 table), written
from the spec's words: one row per vital, consciousness scored U→5,
P→3, V→1 (A→0), on_oxygen true→1. -/
def spec_severity (v : Vitals) : ℕ :=
  specRow (v.respiratory_rate < 12 ∨ v.respiratory_rate > 25) 3
    (v.respiratory_rate > 20) 1 +
  specRow (v.oxygen_saturation < 90) 4 (v.oxygen_saturation < 94) 2 +
  specRow (v.systolic_bp < 90 ∨ v.systolic_bp > 180) 3
    (v.systolic_bp > 160 ∨ v.systolic_bp < 100) 1 +
  specRow (v.heart_rate < 40 ∨ v.heart_rate > 130) 3
    (v.heart_rate > 100 ∨ v.heart_rate < 60) 1 +
  specRow (v.temperature < 35 ∨ v.temperature > 39.5) 3
    (v.temperature > 38 ∨ v.temperature < 36) 1 +
  (if v.consciousness = "U" then 5
   else specRow (v.consciousness = "P") 3 (v.consciousness = "V") 1) +
  (if v.on_oxygen = 1 then 1 else 0)

/-- The spec's tier mapping, written from the spec's words: score ≥ 8 →
High; 4 ≤ score < 8 → Medium; score < 4 → Low, with the canned
probability triples and confidence equal to the chosen tier's entry. -/
def spec_rule_classify (v : Vitals) : String × ℚ × RiskProbs :=
  let s := spec_severity v
  if 8 ≤ s then ("High", 80.0, ⟨5.0, 15.0, 80.0⟩)
  else if 4 ≤ s ∧ s < 8 then ("Medium", 65.0, ⟨20.0, 65.0, 15.0⟩)
  else ("Low", 80.0, ⟨80.0, 15.0, 5.0⟩)

/-- Look up the entry of a tier in a probabilities record, the
embedding of `probs[risk_label]`. -/
def tierProb (p : RiskProbs) (t : String) : ℚ :=
  if t = "Low" then p.low else if t = "Medium" then p.medium else p.high

example : rule_based_score baseline = 0 := by
  norm_num [rule_based_score, baseline, rr_points, spo2_points, sbp_points,
    hr_points, temp_points, consciousness_points, oxygen_points] <;> decide

example : rule_based_predict baseline = ("Low", 80.0, ⟨80.0, 15.0, 5.0⟩) := by
  norm_num [rule_based_predict, rule_based_score, baseline, rr_points, spo2_points,
    sbp_points, hr_points, temp_points, consciousness_points, oxygen_points] <;> decide

example : rule_based_score { baseline with oxygen_saturation := 85 } = 4 := by
  norm_num [rule_based_score, baseline, rr_points, spo2_points, sbp_points,
    hr_points, temp_points, consciousness_points, oxygen_points] <;> decide

example : (rule_based_predict { baseline with oxygen_saturation := 85 }).1 = "Medium" := by
  norm_num [rule_based_predict, rule_based_score, baseline, rr_points, spo2_points,
    sbp_points, hr_points, temp_points, consciousness_points, oxygen_points] <;> decide

example : check_abnormal_vitals { baseline with heart_rate := 101 } =
    [("heart_rate", ⟨101, "high", "60-100"⟩)] := by
  norm_num [check_abnormal_vitals, abnormalCheckRow, baseline]

example : check_abnormal_vitals baseline = [] := by
  norm_num [check_abnormal_vitals, abnormalCheckRow, baseline]

/-- The source's accumulated score coincides with the spec's severity
table, row by row. -/
lemma rule_based_score_eq_spec_severity (v : Vitals) :
    rule_based_score v = spec_severity v := rfl

/-- C1: the rule-based classifier computes the additive severity score
of the spec's threshold table (severe branch taking precedence within
each vital) and maps it to tier High with canned probabilities
(5, 15, 80) when score ≥ 8, Medium with (20, 65, 15) when 4 ≤ score < 8,
and Low with (80, 15, 5) when score < 4; the returned confidence equals
the chosen tier's canned probability, and the three probabilities sum
to 100. -/
theorem rule_based_predict_follows_spec_table (v : Vitals) :
    rule_based_predict v = spec_rule_classify v ∧
    (rule_based_predict v).2.2.low + (rule_based_predict v).2.2.medium +
      (rule_based_predict v).2.2.high = 100 ∧
    (rule_based_predict v).2.1 =
      tierProb (rule_based_predict v).2.2 (rule_based_predict v).1 := by
  refine ⟨?_, ?_, ?_⟩
  · unfold rule_based_predict spec_rule_classify
    dsimp only
    rw [rule_based_score_eq_spec_severity]
    split_ifs <;> first | rfl | omega
  · unfold rule_based_predict
    dsimp only
    split_ifs <;> norm_num
  · unfold rule_based_predict
    dsimp only
    split_ifs <;> simp [tierProb]

/-- C6: in the rule-based severity score, oxygen saturation exactly 90
contributes exactly 2 points, oxygen saturation exactly 94 contributes
0 points, and respiratory rate exactly 25 contributes exactly 1 point,
holding all other vitals fixed (the comparison values 95 and 16 are
in-range and contribute 0). -/
theorem boundary_contributions (v : Vitals) :
    spo2_points 90 = 2 ∧ spo2_points 94 = 0 ∧ rr_points 25 = 1 ∧
    rule_based_score { v with oxygen_saturation := 90 } =
      rule_based_score { v with oxygen_saturation := 95 } + 2 ∧
    rule_based_score { v with oxygen_saturation := 94 } =
      rule_based_score { v with oxygen_saturation := 95 } ∧
    rule_based_score { v with respiratory_rate := 25 } =
      rule_based_score { v with respiratory_rate := 16 } + 1 := by
  refine ⟨by norm_num [spo2_points], by norm_num [spo2_points],
    by norm_num [rr_points], ?_, ?_, ?_⟩ <;>
    simp only [rule_based_score] <;> norm_num [spo2_points, rr_points] <;> omega

/-- C8 counterexample: the baseline record with oxygen saturation
decreased to 85 is classified Medium by the rule-based classifier, not
High as claimed (its score is 4, below the High threshold of 8). -/
theorem spo2_85_not_high :
    (rule_based_predict { baseline with oxygen_saturation := 85 }).1 = "Medium" ∧
    (rule_based_predict { baseline with oxygen_saturation := 85 }).1 ≠ "High" := by
  constructor <;>
    norm_num [rule_based_predict, rule_based_score, baseline, rr_points,
      spo2_points, sbp_points, hr_points, temp_points, consciousness_points,
      oxygen_points] <;> decide

/-- C8 amended: the baseline record is classified Low, and the same
record with oxygen saturation decreased to 85 scores exactly 4 (the
4-point SpO2 rule alone) and is classified Medium. -/
theorem baseline_low_spo2_85_medium :
    rule_based_predict baseline = ("Low", 80.0, ⟨80.0, 15.0, 5.0⟩) ∧
    rule_based_score { baseline with oxygen_saturation := 85 } = 4 ∧
    rule_based_predict { baseline with oxygen_saturation := 85 } =
      ("Medium", 65.0, ⟨20.0, 65.0, 15.0⟩) := by
  refine ⟨?_, ?_, ?_⟩ <;>
    norm_num [rule_based_predict, rule_based_score, baseline, rr_points,
      spo2_points, sbp_points, hr_points, temp_points, consciousness_points,
      oxygen_points] <;> decide

/-- The five numeric vitals that are range-checked: the rows of the
VITAL_RANGES table (model.py 13-20) used by the checks, o2_scale
excluded. -/
inductive NumVital
  | rr
  | spo2
  | sbp
  | hr
  | temp
deriving DecidableEq, Repr

/-- Read one numeric vital from a record. -/
def getVital (v : Vitals) : NumVital → ℚ
  | .rr => v.respiratory_rate
  | .spo2 => v.oxygen_saturation
  | .sbp => v.systolic_bp
  | .hr => v.heart_rate
  | .temp => v.temperature

/-- Replace one numeric vital in a record, all other fields fixed. -/
def setVital (v : Vitals) : NumVital → ℚ → Vitals
  | .rr, x => { v with respiratory_rate := x }
  | .spo2, x => { v with oxygen_saturation := x }
  | .sbp, x => { v with systolic_bp := x }
  | .hr, x => { v with heart_rate := x }
  | .temp, x => { v with temperature := x }

/-- Low end of the normal range: the 'min' column of VITAL_RANGES
(model.py 13-20). -/
def normalLo : NumVital → ℚ
  | .rr => 12
  | .spo2 => 95
  | .sbp => 90
  | .hr => 60
  | .temp => 36.1

/-- High end of the normal range: the 'max' column of VITAL_RANGES
(model.py 13-20). -/
def normalHi : NumVital → ℚ
  | .rr => 20
  | .spo2 => 100
  | .sbp => 140
  | .hr => 100
  | .temp => 37.5

lemma rr_points_anti_below {x y : ℚ} (hyx : y ≤ x) (hx : x ≤ 12) :
    rr_points x ≤ rr_points y := by
  unfold rr_points
  rcases lt_or_le x 12 with h | h
  · have hy : y < 12 := lt_of_le_of_lt hyx h
    simp only [h, hy] <;> norm_num
  · have h1 : ¬ x < 12 := not_lt.mpr h
    have h2 : ¬ x > 25 := not_lt.mpr (by linarith)
    have h3 : ¬ x > 20 := not_lt.mpr (by linarith)
    simp only [h1, h2, h3] <;> norm_num

lemma rr_points_mono_above {x y : ℚ} (hxy : x ≤ y) (hx : 20 ≤ x) :
    rr_points x ≤ rr_points y := by
  unfold rr_points
  rcases lt_or_le 25 x with h | h
  · have hy : (25 : ℚ) < y := lt_of_lt_of_le h hxy
    simp only [h, hy] <;> norm_num
  · have h1 : ¬ x < 12 := not_lt.mpr (by linarith)
    have h2 : ¬ x > 25 := not_lt.mpr h
    rcases lt_or_le 20 x with h20 | h20
    · rcases lt_or_le 25 y with hy25 | hy25
      · simp only [h1, h2, h20, hy25] <;> norm_num
      · have hy1 : ¬ y < 12 := not_lt.mpr (by linarith)
        have hy2 : ¬ y > 25 := not_lt.mpr hy25
        have hy3 : (20 : ℚ) < y := lt_of_lt_of_le h20 hxy
        simp only [h1, h2, h20, hy1, hy2, hy3] <;> norm_num
    · have h3 : ¬ x > 20 := not_lt.mpr h20
      simp only [h1, h2, h3] <;> norm_num

lemma spo2_points_anti_below {x y : ℚ} (hyx : y ≤ x) (hx : x ≤ 95) :
    spo2_points x ≤ spo2_points y := by
  unfold spo2_points
  rcases lt_or_le x 90 with h | h
  · have hy : y < 90 := lt_of_le_of_lt hyx h
    simp only [h, hy] <;> norm_num
  · have h1 : ¬ x < 90 := not_lt.mpr h
    rcases lt_or_le x 94 with h94 | h94
    · rcases lt_or_le y 90 with hy90 | hy90
      · simp only [h1, h94, hy90] <;> norm_num
      · have hy1 : ¬ y < 90 := not_lt.mpr hy90
        have hy2 : y < 94 := lt_of_le_of_lt hyx h94
        simp only [h1, h94, hy1, hy2] <;> norm_num
    · have h2 : ¬ x < 94 := not_lt.mpr h94
      simp only [h1, h2] <;> norm_num

lemma spo2_points_mono_above {x y : ℚ} (hxy : x ≤ y) (hx : 100 ≤ x) :
    spo2_points x ≤ spo2_points y := by
  unfold spo2_points
  have h1 : ¬ x < 90 := not_lt.mpr (by linarith)
  have h2 : ¬ x < 94 := not_lt.mpr (by linarith)
  simp only [h1, h2] <;> norm_num

lemma sbp_points_anti_below {x y : ℚ} (hyx : y ≤ x) (hx : x ≤ 90) :
    sbp_points x ≤ sbp_points y := by
  unfold sbp_points
  rcases lt_or_le x 90 with h | h
  · have hy : y < 90 := lt_of_le_of_lt hyx h
    simp only [h, hy] <;> norm_num
  · have h1 : ¬ x < 90 := not_lt.mpr h
    have h2 : ¬ x > 180 := not_lt.mpr (by linarith)
    have h3 : x < 100 := by linarith
    rcases lt_or_le y 90 with hy90 | hy90
    · simp only [h1, h2, h3, hy90] <;> norm_num
    · have hy1 : ¬ y < 90 := not_lt.mpr hy90
      have hy2 : ¬ y > 180 := not_lt.mpr (by linarith)
      have hy3 : y < 100 := by linarith
      simp only [h1, h2, h3, hy1, hy2, hy3] <;> norm_num

lemma sbp_points_mono_above {x y : ℚ} (hxy : x ≤ y) (hx : 140 ≤ x) :
    sbp_points x ≤ sbp_points y := by
  unfold sbp_points
  rcases lt_or_le 180 x with h | h
  · have hy : (180 : ℚ) < y := lt_of_lt_of_le h hxy
    simp only [h, hy] <;> norm_num
  · have h1 : ¬ x < 90 := not_lt.mpr (by linarith)
    have h2 : ¬ x > 180 := not_lt.mpr h
    have h3 : ¬ x < 100 := not_lt.mpr (by linarith)
    rcases lt_or_le 160 x with h160 | h160
    · rcases lt_or_le 180 y with hy180 | hy180
      · simp only [h1, h2, h3, h160, hy180] <;> norm_num
      · have hy1 : ¬ y < 90 := not_lt.mpr (by linarith)
        have hy2 : ¬ y > 180 := not_lt.mpr hy180
        have hy3 : (160 : ℚ) < y := lt_of_lt_of_le h160 hxy
        simp only [h1, h2, h3, h160, hy1, hy2, hy3] <;> norm_num
    · have h4 : ¬ x > 160 := not_lt.mpr h160
      simp only [h1, h2, h3, h4] <;> norm_num

lemma hr_points_anti_below {x y : ℚ} (hyx : y ≤ x) (hx : x ≤ 60) :
    hr_points x ≤ hr_points y := by
  unfold hr_points
  rcases lt_or_le x 40 with h | h
  · have hy : y < 40 := lt_of_le_of_lt hyx h
    simp only [h, hy] <;> norm_num
  · have h1 : ¬ x < 40 := not_lt.mpr h
    have h2 : ¬ x > 130 := not_lt.mpr (by linarith)
    have h3 : ¬ x > 100 := not_lt.mpr (by linarith)
    rcases lt_or_le x 60 with h60 | h60
    · rcases lt_or_le y 40 with hy40 | hy40
      · simp only [h1, h2, h3, h60, hy40] <;> norm_num
      · have hy1 : ¬ y < 40 := not_lt.mpr hy40
        have hy2 : ¬ y > 130 := not_lt.mpr (by linarith)
        have hy3 : ¬ y > 100 := not_lt.mpr (by linarith)
        have hy4 : y < 60 := lt_of_le_of_lt hyx h60
        simp only [h1, h2, h3, h60, hy1, hy2, hy3, hy4] <;> norm_num
    · have h4 : ¬ x < 60 := not_lt.mpr h60
      simp only [h1, h2, h3, h4] <;> norm_num

lemma hr_points_mono_above {x y : ℚ} (hxy : x ≤ y) (hx : 100 ≤ x) :
    hr_points x ≤ hr_points y := by
  unfold hr_points
  rcases lt_or_le 130 x with h | h
  · have hy : (130 : ℚ) < y := lt_of_lt_of_le h hxy
    simp only [h, hy] <;> norm_num
  · have h1 : ¬ x < 40 := not_lt.mpr (by linarith)
    have h2 : ¬ x > 130 := not_lt.mpr h
    have h3 : ¬ x < 60 := not_lt.mpr (by linarith)
    rcases lt_or_le 100 x with h100 | h100
    · rcases lt_or_le 130 y with hy130 | hy130
      · simp only [h1, h2, h3, h100, hy130] <;> norm_num
      · have hy1 : ¬ y < 40 := not_lt.mpr (by linarith)
        have hy2 : ¬ y > 130 := not_lt.mpr hy130
        have hy3 : (100 : ℚ) < y := lt_of_lt_of_le h100 hxy
        simp only [h1, h2, h3, h100, hy1, hy2, hy3] <;> norm_num
    · have h4 : ¬ x > 100 := not_lt.mpr h100
      simp only [h1, h2, h3, h4] <;> norm_num

lemma temp_points_anti_below {x y : ℚ} (hyx : y ≤ x) (hx : x ≤ 36.1) :
    temp_points x ≤ temp_points y := by
  unfold temp_points
  rcases lt_or_le x 35 with h | h
  · have hy : y < 35 := lt_of_le_of_lt hyx h
    simp only [h, hy] <;> norm_num
  · have h1 : ¬ x < 35 := not_lt.mpr h
    have h2 : ¬ x > 39.5 := not_lt.mpr (by linarith)
    have h3 : ¬ x > 38 := not_lt.mpr (by linarith)
    rcases lt_or_le x 36 with h36 | h36
    · rcases lt_or_le y 35 with hy35 | hy35
      · simp only [h1, h2, h3, h36, hy35] <;> norm_num
      · have hy1 : ¬ y < 35 := not_lt.mpr hy35
        have hy2 : ¬ y > 39.5 := not_lt.mpr (by linarith)
        have hy3 : ¬ y > 38 := not_lt.mpr (by linarith)
        have hy4 : y < 36 := lt_of_le_of_lt hyx h36
        simp only [h1, h2, h3, h36, hy1, hy2, hy3, hy4] <;> norm_num
    · have h4 : ¬ x < 36 := not_lt.mpr h36
      simp only [h1, h2, h3, h4] <;> norm_num

lemma temp_points_mono_above {x y : ℚ} (hxy : x ≤ y) (hx : 37.5 ≤ x) :
    temp_points x ≤ temp_points y := by
  unfold temp_points
  rcases lt_or_le 39.5 x with h | h
  · have hy : (39.5 : ℚ) < y := lt_of_lt_of_le h hxy
    simp only [h, hy] <;> norm_num
  · have h1 : ¬ x < 35 := not_lt.mpr (by linarith)
    have h2 : ¬ x > 39.5 := not_lt.mpr h
    have h3 : ¬ x < 36 := not_lt.mpr (by linarith)
    rcases lt_or_le 38 x with h38 | h38
    · rcases lt_or_le 39.5 y with hy39 | hy39
      · simp only [h1, h2, h3, h38, hy39] <;> norm_num
      · have hy1 : ¬ y < 35 := not_lt.mpr (by linarith)
        have hy2 : ¬ y > 39.5 := not_lt.mpr hy39
        have hy3 : (38 : ℚ) < y := lt_of_lt_of_le h38 hxy
        simp only [h1, h2, h3, h38, hy1, hy2, hy3] <;> norm_num
    · have h4 : ¬ x > 38 := not_lt.mpr h38
      simp only [h1, h2, h3, h4] <;> norm_num

/-- C7: the rule-based severity score is monotone in the distance of
each numeric vital from its normal range: replacing one vital by a
value further below the range's low end (when already at or below it),
or further above the range's high end (when already at or above it),
with all other fields fixed, never decreases the total score. -/
theorem score_monotone_away_from_range (v : Vitals) (k : NumVital) (x' : ℚ) :
    (x' ≤ getVital v k → getVital v k ≤ normalLo k →
      rule_based_score v ≤ rule_based_score (setVital v k x')) ∧
    (getVital v k ≤ x' → normalHi k ≤ getVital v k →
      rule_based_score v ≤ rule_based_score (setVital v k x')) := by
  constructor
  · intro hle hlo
    cases k <;> simp only [getVital, normalLo] at hle hlo <;>
      simp only [rule_based_score, setVital]
    · have h := rr_points_anti_below hle hlo
      omega
    · have h := spo2_points_anti_below hle hlo
      omega
    · have h := sbp_points_anti_below hle hlo
      omega
    · have h := hr_points_anti_below hle hlo
      omega
    · have h := temp_points_anti_below hle hlo
      omega
  · intro hge hhi
    cases k <;> simp only [getVital, normalHi] at hge hhi <;>
      simp only [rule_based_score, setVital]
    · have h := rr_points_mono_above hge hhi
      omega
    · have h := spo2_points_mono_above hge hhi
      omega
    · have h := sbp_points_mono_above hge hhi
      omega
    · have h := hr_points_mono_above hge hhi
      omega
    · have h := temp_points_mono_above hge hhi
      omega

/-- C7 witness: moving heart rate from 50 (already below the normal
range) further down to 40, all other baseline fields fixed, does not
decrease the score. -/
theorem score_monotone_away_from_range_witness :
    rule_based_score { baseline with heart_rate := 50 } ≤
      rule_based_score (setVital { baseline with heart_rate := 50 } NumVital.hr 40) :=
  (score_monotone_away_from_range { baseline with heart_rate := 50 }
      NumVital.hr 40).1
    (by norm_num [getVital, baseline])
    (by norm_num [getVital, normalLo, baseline])

/-- C10: a consciousness value outside U, P, V (for instance a
lowercase letter or arbitrary string, i.e. also outside the documented
AVPU domain) contributes 0 points, exactly as 'A' does, and the
prediction path still returns the normal rule-based result: no domain
check on consciousness occurs anywhere in the prediction path. -/
theorem consciousness_unchecked (v : Vitals)
    (hU : v.consciousness ≠ "U") (hP : v.consciousness ≠ "P")
    (hV : v.consciousness ≠ "V") :
    consciousness_points v.consciousness = 0 ∧
    rule_based_predict v = rule_based_predict { v with consciousness := "A" } ∧
    predict_risk none none v = rule_based_predict v := by
  have h0 : consciousness_points v.consciousness = 0 := by
    simp [consciousness_points, hU, hP, hV]
  refine ⟨h0, ?_, rfl⟩
  have hscore : rule_based_score v =
      rule_based_score { v with consciousness := "A" } := by
    have hA : consciousness_points "A" = 0 := by decide
    simp only [rule_based_score, h0, hA]
  unfold rule_based_predict
  rw [hscore]

/-- C10 witness: the baseline record with consciousness set to the
lowercase string 'a'. -/
theorem consciousness_unchecked_witness :
    consciousness_points ({ baseline with consciousness := "a" } : Vitals).consciousness = 0 ∧
    rule_based_predict { baseline with consciousness := "a" } =
      rule_based_predict { { baseline with consciousness := "a" } with consciousness := "A" } ∧
    predict_risk none none { baseline with consciousness := "a" } =
      rule_based_predict { baseline with consciousness := "a" } :=
  consciousness_unchecked { baseline with consciousness := "a" }
    (by decide) (by decide) (by decide)

/-- C2: whenever the model backend is unavailable (the loaded model or
the loaded scaler is absent), the orchestrator returns exactly the
rule-based classifier's result for the same vitals; and on every call
the result is wholly the rule-based result or wholly the model path's
result — the two backends are never blended within one call. -/
theorem predict_fallback_when_unavailable (mdl : Option ModelFn)
    (scaler : Option ScalerFn) (v : Vitals) :
    ((mdl = none ∨ scaler = none) →
      predict_risk mdl scaler v = rule_based_predict v) ∧
    (predict_risk mdl scaler v = rule_based_predict v ∨
      ∃ m s, mdl = some m ∧ scaler = some s ∧
        predict_risk mdl scaler v = model_predict m s v) := by
  constructor
  · rintro (h | h)
    · subst h
      cases scaler <;> rfl
    · subst h
      cases mdl <;> rfl
  · cases mdl with
    | none => exact Or.inl rfl
    | some m =>
      cases scaler with
      | none => exact Or.inl rfl
      | some s => exact Or.inr ⟨m, s, rfl, rfl, rfl⟩

/-- C2 witness: with neither artifact loaded, the orchestrator returns
the rule-based result on the baseline record. -/
theorem predict_fallback_when_unavailable_witness :
    predict_risk none none baseline = rule_based_predict baseline :=
  (predict_fallback_when_unavailable none none baseline).1 (Or.inl rfl)

/-- C3: every failure in the model path — a missing model artifact, a
missing scaler artifact, an exception raised during feature scaling, or
an exception raised during inference — is absorbed inside the engine:
predict returns the rule-based classifier's result (a total function),
so no exception from the model path reaches the caller. -/
theorem model_failures_absorbed (mdl : Option ModelFn)
    (scaler : Option ScalerFn) (v : Vitals)
    (hfail : mdl = none ∨ scaler = none ∨
      ∃ m s, mdl = some m ∧ scaler = some s ∧
        (s (numericalInput v) = none ∨
          ∃ scaled, s (numericalInput v) = some scaled ∧
            m (finalInput v scaled) = none)) :
    predict_risk mdl scaler v = rule_based_predict v := by
  rcases hfail with h | h | ⟨m, s, hm, hs, hfail⟩
  · subst h
    cases scaler <;> rfl
  · subst h
    cases mdl <;> rfl
  · subst hm
    subst hs
    show model_predict m s v = rule_based_predict v
    rcases hfail with h | ⟨scaled, hsc, hmf⟩
    · simp [model_predict, h]
    · simp [model_predict, hsc, hmf]

/-- C3 witness: a loaded scaler together with a model whose inference
raises on every input; the orchestrator still answers with the
rule-based result on the baseline record. -/
theorem model_failures_absorbed_witness :
    predict_risk (some fun _ => none) (some fun xs => some xs) baseline =
      rule_based_predict baseline :=
  model_failures_absorbed (some fun _ => none) (some fun xs => some xs)
    baseline
    (Or.inr (Or.inr ⟨_, _, rfl, rfl,
      Or.inr ⟨numericalInput baseline, rfl, rfl⟩⟩))

/-- The baseline record with an out-of-domain temperature of 50°C
(admissible domain 30-45°C). -/
def tempFifty : Vitals := { baseline with temperature := 50 }

/-- C4 counterexample: on a record whose temperature (50°C) is outside
the admissible domain, the orchestrator does not fail with a
ValidationError: prediction proceeds and returns an ordinary
classification (tier Low with the canned probabilities) — predict_risk
contains no validation step at all. -/
theorem no_validation_counterexample :
    predict_risk none none tempFifty = ("Low", 80.0, ⟨80.0, 15.0, 5.0⟩) := by
  show rule_based_predict tempFifty = _
  norm_num [rule_based_predict, rule_based_score, tempFifty, baseline,
    rr_points, spo2_points, sbp_points, hr_points, temp_points,
    consciousness_points, oxygen_points] <;> decide

/-- C4 amended: the orchestrator performs no validation: even for a
vitals record with a numeric value outside the admissible domain or a
consciousness string outside the AVPU set, prediction proceeds directly
to the model path or the rule-based path and returns a classification
result (domain constraints exist only in the UI input widgets
upstream). -/
theorem predict_proceeds_without_validation (mdl : Option ModelFn)
    (scaler : Option ScalerFn) (v : Vitals)
    (hbad : v.temperature < 30 ∨ v.temperature > 45 ∨
      (v.consciousness ≠ "A" ∧ v.consciousness ≠ "V" ∧
        v.consciousness ≠ "P" ∧ v.consciousness ≠ "U")) :
    predict_risk mdl scaler v = rule_based_predict v ∨
    ∃ m s, mdl = some m ∧ scaler = some s ∧
      predict_risk mdl scaler v = model_predict m s v := by
  cases mdl with
  | none => exact Or.inl rfl
  | some m =>
    cases scaler with
    | none => exact Or.inl rfl
    | some s => exact Or.inr ⟨m, s, rfl, rfl, rfl⟩

/-- C4 amended witness: temperature 50°C, no backend loaded —
prediction proceeds to the rule-based path. -/
theorem predict_proceeds_without_validation_witness :
    predict_risk none none tempFifty = rule_based_predict tempFifty ∨
    ∃ m s, (none : Option ModelFn) = some m ∧
      (none : Option ScalerFn) = some s ∧
      predict_risk none none tempFifty = model_predict m s tempFifty :=
  predict_proceeds_without_validation none none tempFifty
    (Or.inr (Or.inl (by norm_num [tempFifty, baseline])))

/-- The output tier is one of the three labels. -/
def validLabel (t : String) : Prop :=
  t = "Low" ∨ t = "Medium" ∨ t = "High"

/-- Every probability entry lies in the percentage range 0 to 100. -/
def probsInRange (p : RiskProbs) : Prop :=
  0 ≤ p.low ∧ p.low ≤ 100 ∧ 0 ≤ p.medium ∧ p.medium ≤ 100 ∧
  0 ≤ p.high ∧ p.high ≤ 100

/-- The rule-based path always yields a valid tier and in-range canned
probabilities. -/
lemma rule_based_output_contract (v : Vitals) :
    validLabel (rule_based_predict v).1 ∧
    probsInRange (rule_based_predict v).2.2 := by
  constructor
  · unfold rule_based_predict validLabel
    dsimp only
    split_ifs <;> simp
  · unfold rule_based_predict probsInRange
    dsimp only
    split_ifs <;> norm_num

/-- C9: for every vitals record and every backend state — under the
spec's artifact contract that a loaded model emits class probabilities
in the unit interval — predict returns a tier among Low, Medium, High
and probability entries all within 0 to 100 (the probabilities mapping
has keys exactly Low, Medium, High by the shape of RiskProbs); on a
successful model path the result is exactly the argmax label through
the RISK_LABELS table, the maximal probability times 100, and the three
class probabilities times 100. -/
theorem predict_output_contract (mdl : Option ModelFn)
    (scaler : Option ScalerFn) (v : Vitals)
    (hprob : ∀ m, mdl = some m → ∀ xs p0 p1 p2, m xs = some (p0, p1, p2) →
      0 ≤ p0 ∧ p0 ≤ 1 ∧ 0 ≤ p1 ∧ p1 ≤ 1 ∧ 0 ≤ p2 ∧ p2 ≤ 1) :
    validLabel (predict_risk mdl scaler v).1 ∧
    probsInRange (predict_risk mdl scaler v).2.2 ∧
    (∀ m s scaled p0 p1 p2, mdl = some m → scaler = some s →
      s (numericalInput v) = some scaled →
      m (finalInput v scaled) = some (p0, p1, p2) →
      predict_risk mdl scaler v =
        (RISK_LABELS (argmax3 p0 p1 p2), max3 p0 p1 p2 * 100,
         ⟨p0 * 100, p1 * 100, p2 * 100⟩)) := by
  cases mdl with
  | none =>
    refine ⟨(rule_based_output_contract v).1,
      (rule_based_output_contract v).2, ?_⟩
    intro m s scaled p0 p1 p2 hm
    exact absurd hm (by simp)
  | some m =>
    cases scaler with
    | none =>
      refine ⟨(rule_based_output_contract v).1,
        (rule_based_output_contract v).2, ?_⟩
      intro m' s scaled p0 p1 p2 hm hs
      exact absurd hs (by simp)
    | some s =>
      have hpr : predict_risk (some m) (some s) v = model_predict m s v := rfl
      cases hsc : s (numericalInput v) with
      | none =>
        have heq : model_predict m s v = rule_based_predict v := by
          simp [model_predict, hsc]
        rw [hpr, heq]
        refine ⟨(rule_based_output_contract v).1,
          (rule_based_output_contract v).2, ?_⟩
        intro m' s' scaled p0 p1 p2 hm' hs' hsc'
        rw [Option.some_inj] at hm' hs'
        subst hm'
        subst hs'
        rw [hsc] at hsc'
        exact absurd hsc' (by simp)
      | some scaled =>
        cases hmf : m (finalInput v scaled) with
        | none =>
          have heq : model_predict m s v = rule_based_predict v := by
            simp [model_predict, hsc, hmf]
          rw [hpr, heq]
          refine ⟨(rule_based_output_contract v).1,
            (rule_based_output_contract v).2, ?_⟩
          intro m' s' scaled' p0 p1 p2 hm' hs' hsc' hmf'
          rw [Option.some_inj] at hm' hs'
          subst hm'
          subst hs'
          rw [hsc] at hsc'
          rw [Option.some_inj] at hsc'
          subst hsc'
          rw [hmf] at hmf'
          exact absurd hmf' (by simp)
        | some triple =>
          obtain ⟨p0, p1, p2⟩ := triple
          have heq : model_predict m s v =
              (RISK_LABELS (argmax3 p0 p1 p2), max3 p0 p1 p2 * 100,
               ⟨p0 * 100, p1 * 100, p2 * 100⟩) := by
            simp [model_predict, hsc, hmf]
          obtain ⟨hp0, hp0u, hp1, hp1u, hp2, hp2u⟩ :=
            hprob m rfl _ p0 p1 p2 hmf
          rw [hpr, heq]
          refine ⟨?_, ?_, ?_⟩
          · unfold RISK_LABELS validLabel
            split_ifs <;> simp
          · unfold probsInRange
            dsimp only
            refine ⟨by linarith, by linarith, by linarith, by linarith,
              by linarith, by linarith⟩
          · intro m' s' scaled' q0 q1 q2 hm' hs' hsc' hmf'
            rw [Option.some_inj] at hm' hs'
            subst hm'
            subst hs'
            rw [hsc] at hsc'
            rw [Option.some_inj] at hsc'
            subst hsc'
            rw [hmf] at hmf'
            rw [Option.some_inj] at hmf'
            injection hmf' with h0 h12
            injection h12 with h1 h2
            subst h0
            subst h1
            subst h2
            rfl

/-- C9 witness: with no backend loaded (artifact hypothesis vacuous),
the baseline record gets a valid tier and in-range probabilities. -/
theorem predict_output_contract_witness :
    validLabel (predict_risk none none baseline).1 ∧
    probsInRange (predict_risk none none baseline).2.2 :=
  ⟨(predict_output_contract none none baseline
      (by intro m hm; exact absurd hm (by simp))).1,
   (predict_output_contract none none baseline
      (by intro m hm; exact absurd hm (by simp))).2.1⟩

/-- An entry produced by one row of the checks table carries that
row's key. -/
lemma checkRow_key {value low high : ℚ} {key k txt : String} {f : Finding}
    (h : abnormalCheckRow key value low high txt = some (k, f)) :
    k = key := by
  revert h
  unfold abnormalCheckRow
  split_ifs <;> intro h
  · simp only [Option.some_inj, Prod.mk.injEq] at h
    exact h.1.symm
  · simp only [Option.some_inj, Prod.mk.injEq] at h
    exact h.1.symm
  · exact h.elim

/-- Membership in the detector's output is membership in one of the
five rows. -/
lemma mem_check_abnormal_vitals (v : Vitals) (k : String) (f : Finding) :
    (k, f) ∈ check_abnormal_vitals v ↔
      abnormalCheckRow "respiratory_rate" v.respiratory_rate 12 20 "12-20" = some (k, f) ∨
      abnormalCheckRow "oxygen_saturation" v.oxygen_saturation 95 100 "95-100" = some (k, f) ∨
      abnormalCheckRow "systolic_bp" v.systolic_bp 90 140 "90-140" = some (k, f) ∨
      abnormalCheckRow "heart_rate" v.heart_rate 60 100 "60-100" = some (k, f) ∨
      abnormalCheckRow "temperature" v.temperature 36.1 37.5 "36.1-37.5" = some (k, f) := by
  simp [check_abnormal_vitals, Option.mem_toList, Option.mem_def]

/-- A row of the checks table with its own key: an entry appears iff
the value is strictly below the low bound (a low finding) or strictly
above the high bound (a high finding). -/
lemma checkRow_self_iff {value low high : ℚ} (hlh : low < high)
    (key txt : String) (f : Finding) :
    abnormalCheckRow key value low high txt = some (key, f) ↔
      (value < low ∧ f = ⟨value, "low", txt⟩) ∨
      (value > high ∧ f = ⟨value, "high", txt⟩) := by
  unfold abnormalCheckRow
  split_ifs with h1 h2
  · constructor
    · intro h
      simp only [Option.some_inj, Prod.mk.injEq] at h
      exact Or.inl ⟨h1, h.2.symm⟩
    · rintro (⟨hv, hf⟩ | ⟨hv, hf⟩)
      · subst hf
        rfl
      · exact absurd hv (by linarith)
  · constructor
    · intro h
      simp only [Option.some_inj, Prod.mk.injEq] at h
      exact Or.inr ⟨h2, h.2.symm⟩
    · rintro (⟨hv, hf⟩ | ⟨hv, hf⟩)
      · exact absurd hv h1
      · subst hf
        rfl
  · constructor
    · intro h
      exact h.elim
    · rintro (⟨hv, hf⟩ | ⟨hv, hf⟩)
      · exact absurd hv h1
      · exact absurd hv h2

lemma rr_finding_iff (v : Vitals) (f : Finding) :
    ("respiratory_rate", f) ∈ check_abnormal_vitals v ↔
      (v.respiratory_rate < 12 ∧ f = ⟨v.respiratory_rate, "low", "12-20"⟩) ∨
      (v.respiratory_rate > 20 ∧ f = ⟨v.respiratory_rate, "high", "12-20"⟩) := by
  rw [mem_check_abnormal_vitals]
  constructor
  · rintro (h | h | h | h | h)
    · exact (checkRow_self_iff (by norm_num) _ _ f).mp h
    · exact absurd (checkRow_key h) (by decide)
    · exact absurd (checkRow_key h) (by decide)
    · exact absurd (checkRow_key h) (by decide)
    · exact absurd (checkRow_key h) (by decide)
  · intro h
    exact Or.inl ((checkRow_self_iff (by norm_num) _ _ f).mpr h)

lemma spo2_finding_iff (v : Vitals) (f : Finding) :
    ("oxygen_saturation", f) ∈ check_abnormal_vitals v ↔
      (v.oxygen_saturation < 95 ∧ f = ⟨v.oxygen_saturation, "low", "95-100"⟩) ∨
      (v.oxygen_saturation > 100 ∧ f = ⟨v.oxygen_saturation, "high", "95-100"⟩) := by
  rw [mem_check_abnormal_vitals]
  constructor
  · rintro (h | h | h | h | h)
    · exact absurd (checkRow_key h) (by decide)
    · exact (checkRow_self_iff (by norm_num) _ _ f).mp h
    · exact absurd (checkRow_key h) (by decide)
    · exact absurd (checkRow_key h) (by decide)
    · exact absurd (checkRow_key h) (by decide)
  · intro h
    exact Or.inr (Or.inl ((checkRow_self_iff (by norm_num) _ _ f).mpr h))

lemma sbp_finding_iff (v : Vitals) (f : Finding) :
    ("systolic_bp", f) ∈ check_abnormal_vitals v ↔
      (v.systolic_bp < 90 ∧ f = ⟨v.systolic_bp, "low", "90-140"⟩) ∨
      (v.systolic_bp > 140 ∧ f = ⟨v.systolic_bp, "high", "90-140"⟩) := by
  rw [mem_check_abnormal_vitals]
  constructor
  · rintro (h | h | h | h | h)
    · exact absurd (checkRow_key h) (by decide)
    · exact absurd (checkRow_key h) (by decide)
    · exact (checkRow_self_iff (by norm_num) _ _ f).mp h
    · exact absurd (checkRow_key h) (by decide)
    · exact absurd (checkRow_key h) (by decide)
  · intro h
    exact Or.inr (Or.inr (Or.inl ((checkRow_self_iff (by norm_num) _ _ f).mpr h)))

lemma hr_finding_iff (v : Vitals) (f : Finding) :
    ("heart_rate", f) ∈ check_abnormal_vitals v ↔
      (v.heart_rate < 60 ∧ f = ⟨v.heart_rate, "low", "60-100"⟩) ∨
      (v.heart_rate > 100 ∧ f = ⟨v.heart_rate, "high", "60-100"⟩) := by
  rw [mem_check_abnormal_vitals]
  constructor
  · rintro (h | h | h | h | h)
    · exact absurd (checkRow_key h) (by decide)
    · exact absurd (checkRow_key h) (by decide)
    · exact absurd (checkRow_key h) (by decide)
    · exact (checkRow_self_iff (by norm_num) _ _ f).mp h
    · exact absurd (checkRow_key h) (by decide)
  · intro h
    exact Or.inr (Or.inr (Or.inr (Or.inl
      ((checkRow_self_iff (by norm_num) _ _ f).mpr h))))

lemma temp_finding_iff (v : Vitals) (f : Finding) :
    ("temperature", f) ∈ check_abnormal_vitals v ↔
      (v.temperature < 36.1 ∧ f = ⟨v.temperature, "low", "36.1-37.5"⟩) ∨
      (v.temperature > 37.5 ∧ f = ⟨v.temperature, "high", "36.1-37.5"⟩) := by
  rw [mem_check_abnormal_vitals]
  constructor
  · rintro (h | h | h | h | h)
    · exact absurd (checkRow_key h) (by decide)
    · exact absurd (checkRow_key h) (by decide)
    · exact absurd (checkRow_key h) (by decide)
    · exact absurd (checkRow_key h) (by decide)
    · exact (checkRow_self_iff (by norm_num) _ _ f).mp h
  · intro h
    exact Or.inr (Or.inr (Or.inr (Or.inr
      ((checkRow_self_iff (by norm_num) _ _ f).mpr h))))

/-- C5: the abnormal-vital detector checks exactly the five numeric
vitals against the fixed table respiratory_rate 12-20,
oxygen_saturation 95-100, systolic_bp 90-140, heart_rate 60-100,
temperature 36.1-37.5: an entry with a given key appears iff that
vital is strictly below its low bound (a low finding with the observed
value and range text) or strictly above its high bound (a high
finding); boundary values (heart_rate exactly 100) yield no entry,
heart_rate 101 yields a high finding with range text 60-100, and keys
other than the five — in particular o2_scale, consciousness, on_oxygen
— never appear.  As embedded the detector is a pure function of the
record. -/
theorem check_abnormal_vitals_characterization (v : Vitals) :
    (∀ k f, (k, f) ∈ check_abnormal_vitals v →
      k = "respiratory_rate" ∨ k = "oxygen_saturation" ∨
      k = "systolic_bp" ∨ k = "heart_rate" ∨ k = "temperature") ∧
    (∀ f, ("respiratory_rate", f) ∈ check_abnormal_vitals v ↔
      (v.respiratory_rate < 12 ∧ f = ⟨v.respiratory_rate, "low", "12-20"⟩) ∨
      (v.respiratory_rate > 20 ∧ f = ⟨v.respiratory_rate, "high", "12-20"⟩)) ∧
    (∀ f, ("oxygen_saturation", f) ∈ check_abnormal_vitals v ↔
      (v.oxygen_saturation < 95 ∧ f = ⟨v.oxygen_saturation, "low", "95-100"⟩) ∨
      (v.oxygen_saturation > 100 ∧ f = ⟨v.oxygen_saturation, "high", "95-100"⟩)) ∧
    (∀ f, ("systolic_bp", f) ∈ check_abnormal_vitals v ↔
      (v.systolic_bp < 90 ∧ f = ⟨v.systolic_bp, "low", "90-140"⟩) ∨
      (v.systolic_bp > 140 ∧ f = ⟨v.systolic_bp, "high", "90-140"⟩)) ∧
    (∀ f, ("heart_rate", f) ∈ check_abnormal_vitals v ↔
      (v.heart_rate < 60 ∧ f = ⟨v.heart_rate, "low", "60-100"⟩) ∨
      (v.heart_rate > 100 ∧ f = ⟨v.heart_rate, "high", "60-100"⟩)) ∧
    (∀ f, ("temperature", f) ∈ check_abnormal_vitals v ↔
      (v.temperature < 36.1 ∧ f = ⟨v.temperature, "low", "36.1-37.5"⟩) ∨
      (v.temperature > 37.5 ∧ f = ⟨v.temperature, "high", "36.1-37.5"⟩)) ∧
    check_abnormal_vitals { baseline with heart_rate := 100 } = [] ∧
    check_abnormal_vitals { baseline with heart_rate := 101 } =
      [("heart_rate", ⟨101, "high", "60-100"⟩)] := by
  refine ⟨?_, fun f => rr_finding_iff v f, fun f => spo2_finding_iff v f,
    fun f => sbp_finding_iff v f, fun f => hr_finding_iff v f,
    fun f => temp_finding_iff v f, ?_, ?_⟩
  · intro k f h
    rw [mem_check_abnormal_vitals] at h
    rcases h with h | h | h | h | h
    · exact Or.inl (checkRow_key h)
    · exact Or.inr (Or.inl (checkRow_key h))
    · exact Or.inr (Or.inr (Or.inl (checkRow_key h)))
    · exact Or.inr (Or.inr (Or.inr (Or.inl (checkRow_key h))))
    · exact Or.inr (Or.inr (Or.inr (Or.inr (checkRow_key h))))
  · norm_num [check_abnormal_vitals, abnormalCheckRow, baseline]
  · norm_num [check_abnormal_vitals, abnormalCheckRow, baseline]

/-- C5 witness: the concrete boundary instance heart_rate = 101 taken
from the characterization. -/
theorem check_abnormal_vitals_characterization_witness :
    check_abnormal_vitals { baseline with heart_rate := 101 } =
      [("heart_rate", ⟨101, "high", "60-100"⟩)] :=
  (check_abnormal_vitals_characterization baseline).2.2.2.2.2.2.2

end HealthRisk
